import Mathlib

/-!
Verification of the openclaw-dingtalk channel plugin.

This file gives a shallow embedding of the plugin's core protocol logic —
the stream client's frame routing and acknowledgement envelopes
(src/dingtalk_stream/stream.ts, frames.ts), the two access-token caches
(src/dingtalk_stream/stream.ts and ai-card.ts), richText extraction
(src/richtext.ts), the proactive-send path (richtext.ts module two and
stream.ts module), inbound message parsing (src/bot.ts), the AI-card
streaming operations and replier (ai-card.ts, src/card-replier.ts), the
session-key store (src/session.ts) and the streaming handler
(src/streaming-handler.ts) — and proves the stated properties about it.

Conventions.  JavaScript epoch times are embedded as `Int` (seconds or
milliseconds, matching each source site).  Remote I/O is passed in as
explicit oracle values: an HTTP exchange becomes an `Except`/`Bool`
argument, and functions whose observable behaviour is a sequence of
outbound operations return a `List` of effect values describing exactly
the requests the TypeScript code would issue.  Optional/falsy JavaScript
fields become `Option` values, with JavaScript truthiness coded out
explicitly at each use site.
-/

/- ===================== JSON values (for JSON.stringify modelling) ===== -/

/-- Minimal JSON value tree: enough to express the acknowledgement
envelope of `frames.ts` and its double-encoded `data` field. -/
inductive Json where
  | str (s : String) : Json
  | num (n : Int) : Json
  | obj (fields : List (String × Json)) : Json

/-- Hex digit used by the `\uXXXX` escapes of `JSON.stringify`. -/
def hexDigit (n : Nat) : Char :=
  if n < 10 then Char.ofNat (48 + n) else Char.ofNat (87 + n)

/-- One-character escaping rule of `JSON.stringify` for string values. -/
def jsonEscapeChar (c : Char) : String :=
  if c = Char.ofNat 34 then "\\\""
  else if c = Char.ofNat 92 then "\\\\"
  else if c = Char.ofNat 8 then "\\b"
  else if c = Char.ofNat 9 then "\\t"
  else if c = Char.ofNat 10 then "\\n"
  else if c = Char.ofNat 12 then "\\f"
  else if c = Char.ofNat 13 then "\\r"
  else if c.toNat < 32 then
    "\\u00" ++ String.mk [hexDigit (c.toNat / 16), hexDigit (c.toNat % 16)]
  else String.singleton c

/-- JavaScript `String.prototype.trim`: strip leading and trailing
whitespace (modelled on the character list so that evaluation is
kernel-computable). -/
def jsTrim (s : String) : String :=
  String.mk (((s.data.dropWhile Char.isWhitespace).reverse.dropWhile
    Char.isWhitespace).reverse)

/-- JavaScript `String.prototype.toLowerCase` (ASCII case fold, which
covers every string the embedded code compares). -/
def jsToLower (s : String) : String :=
  String.mk (s.data.map Char.toLower)

/-- Rendering of `JSON.stringify` for a string value. -/
def jsonQuote (s : String) : String :=
  "\"" ++ String.join (s.data.map jsonEscapeChar) ++ "\""

mutual

/-- Rendering of `JSON.stringify` restricted to the value shapes of this development. -/
def Json.render : Json → String
  | .str s => jsonQuote s
  | .num n => toString n
  | .obj fields => "\x7b" ++ String.intercalate "," (Json.renderFields fields) ++ "\x7d"

/-- Rendered `key:value` pairs of an object, in field order. -/
def Json.renderFields : List (String × Json) → List String
  | [] => []
  | f :: rest => (jsonQuote f.1 ++ ":" ++ Json.render f.2) :: Json.renderFields rest

end

/- ===================== frames.ts ====================================== -/

namespace Frames

/-- Header fields an acknowledgement envelope sets (frames.ts `Headers`;
only the fields that `socketCallBackResponse` populates are modelled). -/
structure AckHeaders where
  messageId : Option String := none
  contentType : Option String := none

/-- frames.ts `Headers.CONTENT_TYPE_APPLICATION_JSON`. -/
def CONTENT_TYPE_APPLICATION_JSON : String := "application/json"

/-- frames.ts `Headers.toDict`: present fields only, `contentType`
before `messageId` as in the source's spread order. -/
def AckHeaders.toDict (h : AckHeaders) : Json :=
  .obj ((match h.contentType with
          | some c => [("contentType", Json.str c)]
          | none => []) ++
        (match h.messageId with
          | some m => [("messageId", Json.str m)]
          | none => []))

/-- frames.ts `AckMessage`. -/
structure AckMessage where
  code : Int := 200
  headers : AckHeaders := {}
  message : String := ""
  data : Json := .obj []

def AckMessage.STATUS_OK : Int := 200
def AckMessage.STATUS_BAD_REQUEST : Int := 400
def AckMessage.STATUS_NOT_IMPLEMENT : Int := 404
def AckMessage.STATUS_SYSTEM_EXCEPTION : Int := 500

/-- frames.ts `AckMessage.toDict`: the envelope object, whose `data`
field is `JSON.stringify(this.data)` — a string holding a second,
inner JSON encoding. -/
def AckMessage.toDict (a : AckMessage) : Json :=
  .obj [("code", .num a.code),
        ("headers", a.headers.toDict),
        ("message", .str a.message),
        ("data", .str (Json.render a.data))]

end Frames

/- ===================== dingtalk_stream/stream.ts ====================== -/

namespace Stream

open Frames

/-- stream.ts `AckParams`. -/
structure AckParams where
  success : Bool
  error : Option String := none
  message : Option String := none

/-- stream.ts `DingTalkStreamClient.socketCallBackResponse`: returns the
envelope handed to `sendJson`, or `none` when the empty-`messageId`
guard fires and nothing is constructed or sent. -/
def socketCallBackResponse (messageId : String) (params : AckParams) : Option Json :=
  if messageId = "" then none
  else
    let msg : String :=
      match params.message with
      | some m => m
      | none =>
          if params.success then "OK"
          else match params.error with
               | some e => e
               | none => "ERROR"
    let ack : AckMessage :=
      { code := if params.success then AckMessage.STATUS_OK else AckMessage.STATUS_SYSTEM_EXCEPTION,
        headers := { messageId := some messageId, contentType := some CONTENT_TYPE_APPLICATION_JSON },
        message := msg,
        data := .obj [("response", .str msg)] }
    some ack.toDict

/-- stream.ts `RawFrame` after the `String(... ?? "")` coercions of
`routeMessage`: absent fields are read back as the empty string, and a
non-string `data` is `JSON.stringify`-ed before dispatch (the stringified
form is taken as input here). -/
structure RawFrame where
  type : Option String := none
  topic : Option String := none
  messageId : Option String := none
  data : Option String := none

/-- Modelled from the spec: `SystemMessage.TOPIC_DISCONNECT` — the
`SystemMessage` class of frames.ts is not among the provided sources;
the spec (§4.2) and the sibling client define the disconnect topic as
the literal string "disconnect". -/
def TOPIC_DISCONNECT : String := "disconnect"

/-- Observable outcome of one `routeMessage` dispatch. -/
inductive StreamEffect where
  | runSystemHandlers : StreamEffect
  | runEventHandlers : StreamEffect
  | closeSocket : StreamEffect
  | ack (messageId : String) (success : Bool) : StreamEffect
  | invokeCallbackHandler (topic : String) (data : String) : StreamEffect
  | warnUnknownTopic (topic : String) : StreamEffect
deriving DecidableEq, Repr

/-- stream.ts `DingTalkStreamClient.routeMessage` (the handler-aware
variant cited by the spec): one inbound frame is classified by `type`
and produces the listed outbound operations in order.  `callbackTopics`
is the key set of `callbackHandlerMap`; `systemHandlers`/`eventHandlers`
say whether those handler lists are non-empty. -/
def routeMessage (callbackTopics : List String)
    (systemHandlers eventHandlers : Bool) (frame : RawFrame) : List StreamEffect :=
  let msgType := frame.type.getD ""
  let topic := frame.topic.getD ""
  let messageId := frame.messageId.getD ""
  let dataStr := frame.data.getD "\x7b\x7d"
  if msgType = "SYSTEM" then
    (if systemHandlers then [.runSystemHandlers] else []) ++
    (if topic = TOPIC_DISCONNECT then [.closeSocket] else []) ++
    (if messageId ≠ "" then [.ack messageId true] else [])
  else if msgType = "CALLBACK" then
    if topic ∈ callbackTopics then [.invokeCallbackHandler topic dataStr]
    else [.warnUnknownTopic topic]
  else if msgType = "EVENT" then
    (if eventHandlers then [.runEventHandlers] else []) ++
    (if messageId ≠ "" then [.ack messageId true] else [])
  else
    (if messageId ≠ "" then [.ack messageId true] else [])

/-- Whether a routing effect is an acknowledgement send. -/
def StreamEffect.isAck : StreamEffect → Bool
  | .ack _ _ => true
  | _ => false

/- ---------- access-token cache of DingTalkStreamClient ---------- -/

/-- stream.ts cached token record: `expireTime` is epoch seconds and is
stored already reduced by the five-minute buffer. -/
structure CachedToken where
  accessToken : String
  expireTime : Int

/-- Body of the token-exchange HTTP response (`accessToken`/`expireIn`
after the `String`/`Number` coercions). -/
structure TokenResponse where
  accessToken : String
  expireIn : Int

/-- stream.ts `getAccessToken`, refresh path: validates the exchange
body and caches `now + expireIn - 5*60` as `expireTime`. -/
def refreshAccessToken (now : Int) (exchange : Except String TokenResponse) :
    Except String (String × Option CachedToken) :=
  match exchange with
  | .error e => .error e
  | .ok resp =>
      if resp.accessToken = "" ∨ resp.expireIn = 0 then
        .error "get dingtalk access token failed, missing accessToken/expireIn"
      else
        .ok (resp.accessToken, some ⟨resp.accessToken, now + resp.expireIn - 5 * 60⟩)

/-- stream.ts `DingTalkStreamClient.getAccessToken`: returns the token,
the cache state after the call, and whether the cached value was used
(`true`) or a fresh exchange ran (`false`). -/
def getAccessToken (cache : Option CachedToken) (now : Int)
    (exchange : Except String TokenResponse) :
    Except String (String × Option CachedToken × Bool) :=
  match cache with
  | some e =>
      if now < e.expireTime then .ok (e.accessToken, some e, true)
      else
        match refreshAccessToken now exchange with
        | .error msg => .error msg
        | .ok (tok, c) => .ok (tok, c, false)
  | none =>
      match refreshAccessToken now exchange with
      | .error msg => .error msg
      | .ok (tok, c) => .ok (tok, c, false)

end Stream

/- ===================== ai-card.ts token cache ========================= -/

namespace AiCard

/-- ai-card.ts module-level token cache: `accessTokenExpiry` is epoch
milliseconds and records the full server validity end (no margin is
subtracted when storing). -/
structure TokenCacheState where
  accessToken : Option String := none
  accessTokenExpiry : Int := 0

/-- ai-card.ts `getAccessToken`, refresh path: caches
`now + expireIn * 1000` and returns the fresh token. -/
def refreshAccessToken (now : Int) (exchange : Except String Stream.TokenResponse) :
    Except String (String × TokenCacheState) :=
  match exchange with
  | .error e => .error e
  | .ok resp => .ok (resp.accessToken, ⟨some resp.accessToken, now + resp.expireIn * 1000⟩)

/-- ai-card.ts `getAccessToken`: the cached token is reused whenever
`accessTokenExpiry > now + 60_000`, i.e. with only a one-minute guard;
the `Bool` reports whether the cached value was used. -/
def getAccessToken (st : TokenCacheState) (now : Int)
    (exchange : Except String Stream.TokenResponse) :
    Except String (String × TokenCacheState × Bool) :=
  match st.accessToken with
  | some t =>
      if st.accessTokenExpiry > now + 60000 then .ok (t, st, true)
      else
        match refreshAccessToken now exchange with
        | .error e => .error e
        | .ok (tok, st2) => .ok (tok, st2, false)
  | none =>
      match refreshAccessToken now exchange with
      | .error e => .error e
      | .ok (tok, st2) => .ok (tok, st2, false)

end AiCard

/- ===================== richtext.ts ==================================== -/

namespace Richtext

/-- richtext.ts `MAX_RICHTEXT_IMAGES`. -/
def MAX_RICHTEXT_IMAGES : Nat := 10

/-- JSON-like tree over which the richText traversals of richtext.ts
run.  `prim` is any non-object, non-array value (string/number/null/
boolean — the traversal ignores it); `node` is an object with the five
fields the code inspects (`type`, `text`, `downloadCode`,
`pictureDownloadCode`, `richText`, `content`), each `none` when absent,
not a string (for the four string fields), or JavaScript-falsy. -/
inductive RichNode where
  | prim : RichNode
  | arr (items : List RichNode) : RichNode
  | node (ty tx dc pdc : Option String) (rich cont : Option RichNode) : RichNode

/-- richtext.ts code selection inside a picture node:
`(typeof downloadCode === "string" ? downloadCode : undefined) ||
(typeof pictureDownloadCode === "string" ? pictureDownloadCode : undefined)`,
with `if (code)` discarding the empty string. -/
def pickCode (dc pdc : Option String) : Option String :=
  match dc with
  | some s =>
      if s ≠ "" then some s
      else match pdc with
           | some t => if t ≠ "" then some t else none
           | none => none
  | none =>
      match pdc with
      | some t => if t ≠ "" then some t else none
      | none => none

mutual

/-- The `parts` list accumulated by `extractRichTextContent`'s
`traverse`, in push order: a picture node contributes the placeholder,
otherwise a truthy string `text` field contributes itself; then the
`richText` and `content` children are visited in that order. -/
def rtParts : RichNode → List String
  | .prim => []
  | .arr items => rtPartsList items
  | .node ty tx _ _ rich cont =>
      (if ty = some "picture" then ["[图片]"]
       else match tx with
            | some s => if s ≠ "" then [s] else []
            | none => []) ++ rtPartsOpt rich ++ rtPartsOpt cont

/-- The `traverse` helper applied to a possibly-absent child. -/
def rtPartsOpt : Option RichNode → List String
  | none => []
  | some r => rtParts r

/-- The `traverse` helper applied to each array element in order. -/
def rtPartsList : List RichNode → List String
  | [] => []
  | x :: xs => rtParts x ++ rtPartsList xs

end

/-- richtext.ts `extractRichTextContent`: non-object input returns ""
at the guard; else the joined parts are trimmed, with the fixed
fallback string when the result is empty. -/
def extractRichTextContent (richText : RichNode) : String :=
  match richText with
  | .prim => ""
  | rt =>
      let s := jsTrim (String.join (rtParts rt))
      if s = "" then "[富文本消息]" else s

mutual

/-- The `codes` accumulator of `extractRichTextDownloadCodes`'s
`traverse`: each call first early-returns once `MAX_RICHTEXT_IMAGES`
codes are collected, then pushes a picture node's code (if any) and
recurses into `richText` and `content`. -/
def codesGo (n : RichNode) (acc : List String) : List String :=
  if acc.length ≥ MAX_RICHTEXT_IMAGES then acc
  else
    match n with
    | .prim => acc
    | .arr items => codesGoList items acc
    | .node ty _ dc pdc rich cont =>
        codesGoOpt cont (codesGoOpt rich
          (if ty = some "picture" then
            match pickCode dc pdc with
            | some c => acc ++ [c]
            | none => acc
          else acc))

/-- Capped traversal of a possibly-absent child. -/
def codesGoOpt : Option RichNode → List String → List String
  | none, acc => acc
  | some r, acc => codesGo r acc

/-- Capped traversal of array items in order. -/
def codesGoList : List RichNode → List String → List String
  | [], acc => acc
  | x :: xs, acc => codesGoList xs (codesGo x acc)

end

/-- richtext.ts `extractRichTextDownloadCodes`. -/
def extractRichTextDownloadCodes (richText : RichNode) : List String :=
  match richText with
  | .prim => []
  | rt => codesGo rt []

/-- Specification-level item: one output-producing node of a richText
tree, recorded in document order. -/
inductive RichItem where
  | text (s : String) : RichItem
  | picture (code : Option String) : RichItem
deriving DecidableEq, Repr

mutual

/-- Specification-level document-order traversal: the list of
output-producing nodes (non-empty text nodes and picture nodes) in the
order the source traversals visit them.  Defined here from the spec's
wording ("text nodes are concatenated in document order; media nodes
are replaced with a fixed placeholder and their download-reference is
collected") to compare with the source functions. -/
def docItems : RichNode → List RichItem
  | .prim => []
  | .arr items => docItemsList items
  | .node ty tx dc pdc rich cont =>
      (if ty = some "picture" then [RichItem.picture (pickCode dc pdc)]
       else match tx with
            | some s => if s ≠ "" then [RichItem.text s] else []
            | none => []) ++ docItemsOpt rich ++ docItemsOpt cont

/-- Document-order items of a possibly-absent child. -/
def docItemsOpt : Option RichNode → List RichItem
  | none => []
  | some r => docItems r

/-- Document-order items of array elements. -/
def docItemsList : List RichNode → List RichItem
  | [] => []
  | x :: xs => docItems x ++ docItemsList xs

end

/-- Text contributed by one document-order item: a picture renders as
the fixed placeholder token. -/
def RichItem.part : RichItem → String
  | .text s => s
  | .picture _ => "[图片]"

/-- Download code contributed by one document-order item. -/
def RichItem.code : RichItem → Option String
  | .text _ => none
  | .picture c => c

mutual

/-- Specification-level uncapped download-code list, in document order
(the codes `extractRichTextDownloadCodes` would collect with no
`MAX_RICHTEXT_IMAGES` bound). -/
def rtCodes : RichNode → List String
  | .prim => []
  | .arr items => rtCodesList items
  | .node ty _ dc pdc rich cont =>
      (if ty = some "picture" then
        match pickCode dc pdc with
        | some c => [c]
        | none => []
      else []) ++ rtCodesOpt rich ++ rtCodesOpt cont

/-- Uncapped codes of a possibly-absent child. -/
def rtCodesOpt : Option RichNode → List String
  | none => []
  | some r => rtCodes r

/-- Uncapped codes of array elements. -/
def rtCodesList : List RichNode → List String
  | [] => []
  | x :: xs => rtCodes x ++ rtCodesList xs

end

/-- Boolean primitiveness test (the `typeof richText !== "object"`
guard). -/
def RichNode.isPrimB : RichNode → Bool
  | .prim => true
  | _ => false

/-- A concrete payload holding `n` picture nodes with distinct codes. -/
def picturePayload (n : Nat) : RichNode :=
  .arr ((List.range n).map
    (fun i => RichNode.node (some "picture") none (some ("code" ++ toString i)) none none none))

end Richtext

/- ===================== session.ts ==================================== -/

namespace Session

/-- session.ts `UserSession`. -/
structure UserSession where
  lastActivity : Int
  sessionId : String
deriving DecidableEq, Repr

/-- session.ts `NEW_SESSION_COMMANDS`. -/
def NEW_SESSION_COMMANDS : List String :=
  ["/new", "/reset", "/clear", "新会话", "重新开始", "清空对话"]

/-- session.ts `DEFAULT_SESSION_TIMEOUT` (30 minutes, ms). -/
def DEFAULT_SESSION_TIMEOUT : Int := 1800000

/-- session.ts `isNewSessionCommand`. -/
def isNewSessionCommand (text : String) : Bool :=
  NEW_SESSION_COMMANDS.any (fun cmd => jsToLower (jsTrim text) = jsToLower cmd)

/-- The module-level `userSessions` map, as a total lookup function. -/
def SessionMap : Type := String → Option UserSession

/-- Update of the `userSessions` map (`userSessions.set`). -/
def SessionMap.set (m : SessionMap) (k : String) (v : UserSession) : SessionMap :=
  fun x => if x = k then some v else m x

/-- session.ts `getSessionKey`: result key, `isNew` flag, and the map
after the call. -/
def getSessionKey (sessions : SessionMap) (senderId : String) (forceNew : Bool)
    (sessionTimeout : Int) (now : Int) : String × Bool × SessionMap :=
  if forceNew then
    let sessionId := "dingtalk:" ++ senderId ++ ":" ++ toString now
    (sessionId, true, sessions.set senderId ⟨now, sessionId⟩)
  else
    match sessions senderId with
    | some existing =>
        if now - existing.lastActivity > sessionTimeout then
          let sessionId := "dingtalk:" ++ senderId ++ ":" ++ toString now
          (sessionId, true, sessions.set senderId ⟨now, sessionId⟩)
        else
          (existing.sessionId, false, sessions.set senderId ⟨now, existing.sessionId⟩)
    | none =>
        let sessionId := "dingtalk:" ++ senderId
        (sessionId, false, sessions.set senderId ⟨now, sessionId⟩)

end Session

/- ===================== stream.ts module (webhook cache) =============== -/

namespace Monitor

/-- The module-level `sessionWebhookByConversation` map of the stream.ts
module, keyed by `accountId:conversationId`. -/
def WebhookMap : Type := String → Option String

/-- stream.ts module `getSessionWebhook` (`?? null` becomes `none`). -/
def getSessionWebhook (cache : WebhookMap) (accountId conversationId : String) : Option String :=
  cache (accountId ++ ":" ++ conversationId)

end Monitor

/- ===================== richtext.ts module two (proactive send) ======== -/

namespace Proactive

/-- The credential fields of `resolveDingtalkAccount`'s result that the
proactive send path reads (accounts.ts returns `""` for a missing
credential). -/
structure ResolvedAccount where
  accountId : String
  clientId : String
  clientSecret : String

/-- The `{ok, error?}` result shape of the proactive send functions. -/
structure SendResult where
  ok : Bool
  error : Option String := none
deriving DecidableEq, Repr

/-- Model of `sendDingtalkTextViaSessionWebhook`: credential guard, then token
resolution and one webhook POST, every failure caught into a
`{ok:false, error}` value.  `tokenRes` is the `getDingTalkAccessToken`
outcome and `postStatus` the axios POST outcome (status or thrown
message). -/
def sendDingtalkTextViaSessionWebhook (account : ResolvedAccount)
    (tokenRes : Except String String) (postStatus : Except String Int) : SendResult :=
  if account.clientId = "" ∨ account.clientSecret = "" then
    ⟨false, some "DingTalk clientId/clientSecret not configured"⟩
  else
    match tokenRes with
    | .error e => ⟨false, some e⟩
    | .ok _ =>
        match postStatus with
        | .error e => ⟨false, some e⟩
        | .ok status =>
            if 200 ≤ status ∧ status < 300 then ⟨true, none⟩
            else ⟨false, some ("HTTP " ++ toString status)⟩

/-- Model of `sendDingtalkTextToConversation`: resolves the cached session
webhook for the conversation and fails structurally when none exists. -/
def sendDingtalkTextToConversation (account : ResolvedAccount)
    (webhookCache : Monitor.WebhookMap) (conversationId : String)
    (tokenRes : Except String String) (postStatus : Except String Int) : SendResult :=
  if account.clientId = "" ∨ account.clientSecret = "" then
    ⟨false, some "DingTalk clientId/clientSecret not configured"⟩
  else
    match Monitor.getSessionWebhook webhookCache account.accountId conversationId with
    | none =>
        ⟨false, some ("Unknown sessionWebhook for conversationId=" ++ conversationId ++
          ". Send a message in that chat first to establish a stream context.")⟩
    | some _ => sendDingtalkTextViaSessionWebhook account tokenRes postStatus

end Proactive

/- ===================== types.ts / bot.ts ============================= -/

/-- One entry of the inbound payload's `atUsers` list. -/
structure AtUser where
  dingtalkId : Option String := none
  staffId : Option String := none
deriving DecidableEq, Repr

/-- The raw `content` field of an inbound payload as the richText
helpers see it: a JSON string together with its parse result, a
non-null object, or some other truthy value.  `parsed`/the parse result
is `none` when `JSON.parse` throws or yields a JavaScript-falsy value
(so `some .prim` stands for a truthy non-object primitive), matching
the `if (parsed)` truthiness tests at the call sites. -/
inductive RawContent where
  | str (s : String) (parsed : Option Richtext.RichNode) : RawContent
  | obj (node : Richtext.RichNode) : RawContent
  | other : RawContent

/-- richtext.ts `safeParseRichText` composed with the caller's
truthiness test on its result. -/
def safeParseRichText : RawContent → Option Richtext.RichNode
  | .str _ p => p
  | .obj n => some n
  | .other => none

/-- JavaScript truthiness of the `content` field. -/
def contentTruthy : Option RawContent → Bool
  | none => false
  | some (.str s _) => s ≠ ""
  | some (.obj _) => true
  | some .other => true

/-- types.ts `DingTalkIncomingMessage`, restricted to the fields the
embedded functions read.  `textContent` is `message.text?.content`;
`isInAtList` is the truthiness of the optional flag. -/
structure DingTalkIncomingMessage where
  msgtype : Option String := none
  textContent : Option String := none
  content : Option RawContent := none
  recognition : Option String := none
  downloadCode : Option String := none
  conversationId : String := ""
  conversationType : Option String := none
  msgId : Option String := none
  senderStaffId : Option String := none
  senderNick : Option String := none
  sessionWebhook : Option String := none
  sessionWebhookExpiredTime : Option Int := none
  robotCode : Option String := none
  chatbotCorpId : Option String := none
  isAdmin : Option Bool := none
  isInAtList : Bool := false
  atUsers : Option (List AtUser) := none

namespace Bot

/-- bot.ts `describeMediaMessage`. -/
def describeMediaMessage (m : DingTalkIncomingMessage) : String :=
  match m.msgtype with
  | some "image" => "用户发送了一张图片"
  | some "picture" => "用户发送了一张图片"
  | some "file" => "用户发送了一个文件"
  | some "voice" =>
      match m.recognition with
      | some r =>
          if r ≠ "" then "用户发送了一条语音消息，语音识别内容: " ++ r
          else "用户发送了一条语音消息"
      | none => "用户发送了一条语音消息"
  | some "video" => "用户发送了一个视频"
  | some other => "[" ++ other ++ "]"
  | none => "[undefined]"

/-- bot.ts `parseMessageContent`. -/
def parseMessageContent (m : DingTalkIncomingMessage) : String :=
  if m.msgtype = some "text" ∧ m.textContent.getD "" ≠ "" then
    jsTrim (m.textContent.getD "")
  else if m.msgtype = some "richText" ∧ contentTruthy m.content then
    match m.content with
    | some c =>
        (match safeParseRichText c with
         | some parsed => Richtext.extractRichTextContent parsed
         | none =>
             match c with
             | .str s _ => s
             | _ => "[富文本消息]")
    | none => "[富文本消息]"
  else describeMediaMessage m

/-- bot.ts `checkBotMentioned`. -/
def checkBotMentioned (m : DingTalkIncomingMessage) : Bool :=
  if m.isInAtList then true
  else
    match m.atUsers with
    | some l => !l.isEmpty
    | none => false

/-- bot.ts `stripBotMention`:
`text.replace(/^@\S+\s*/g, "").trim()`.  The anchored pattern can match
at most once, removing a leading `@`, a non-empty maximal run of
non-whitespace, and any following whitespace. -/
def stripBotMention (text : String) : String :=
  match text.data with
  | c :: rest =>
      if c = '@' then
        let tok := rest.takeWhile (fun ch => !ch.isWhitespace)
        if tok = [] then jsTrim text
        else jsTrim (String.mk ((rest.drop tok.length).dropWhile Char.isWhitespace))
      else jsTrim text
  | [] => jsTrim text

/-- bot.ts `DingTalkMessageContext`, restricted to modelled fields. -/
structure DingTalkMessageContext where
  conversationId : String
  messageId : Option String
  senderId : String
  senderNick : Option String
  chatType : String
  mentionedBot : Bool
  sessionWebhook : Option String
  content : String
  contentType : Option String

/-- bot.ts `parseDingTalkMessage`. -/
def parseDingTalkMessage (m : DingTalkIncomingMessage) : DingTalkMessageContext :=
  let rawContent := parseMessageContent m
  let mentionedBot := checkBotMentioned m
  let content := stripBotMention rawContent
  { conversationId := m.conversationId,
    messageId := m.msgId,
    senderId := m.senderStaffId.getD "",
    senderNick := m.senderNick,
    chatType := if m.conversationType = some "2" then "group" else "p2p",
    mentionedBot := mentionedBot,
    sessionWebhook := m.sessionWebhook,
    content := content,
    contentType := m.msgtype }

end Bot

/- ===================== ai-card.ts / card-replier.ts =================== -/

namespace AiCard

/-- ai-card.ts `AICardStatus`. -/
def AICardStatus.PROCESSING : String := "1"
def AICardStatus.INPUTING : String := "2"
def AICardStatus.FINISHED : String := "3"
def AICardStatus.EXECUTING : String := "4"
def AICardStatus.FAILED : String := "5"

/-- ai-card.ts `AICardInstance`. -/
structure AICardInstance where
  cardInstanceId : String
  accessToken : String
  inputingStarted : Bool
deriving DecidableEq, Repr

/-- One outbound operation of the card/streaming layer.  `webhookSend`
is a sessionWebhook POST (send.ts); the `card*` constructors are the
DingTalk card API calls of ai-card.ts; `mediaDownload` is an inbound
media fetch attempt of streaming-handler.ts; `warnNotStarted` is the
card-replier guard log. -/
inductive Effect where
  | webhookSend (msgtype : String) (title : Option String) (text : String) (atUserIds : List String) : Effect
  | cardCreateInstance (outTrackId : String) : Effect
  | cardDeliver (outTrackId : String) : Effect
  | cardPutStatus (outTrackId status content : String) : Effect
  | cardPutStreaming (outTrackId content : String) (finalize : Bool) : Effect
  | mediaDownload (code : String) : Effect
  | warnNotStarted : Effect
deriving DecidableEq, Repr

/-- Whether an effect is a sessionWebhook send. -/
def Effect.isWebhookSend : Effect → Bool
  | .webhookSend _ _ _ _ => true
  | _ => false

/-- Whether an effect is a remote card-API operation. -/
def Effect.isCardOp : Effect → Bool
  | .cardCreateInstance _ => true
  | .cardDeliver _ => true
  | .cardPutStatus _ _ _ => true
  | .cardPutStreaming _ _ _ => true
  | _ => false

/-- ai-card.ts `createAICard` outcome: `tokenRes` is the
`getAccessToken` result (a thrown error is caught into `null`), and
`createOk`/`deliverOk` are the HTTP outcomes of the two POST calls;
any failure yields `none`. -/
def createAICard (tokenRes : Except String String) (cardInstanceId : String)
    (createOk deliverOk : Bool) : Option AICardInstance :=
  match tokenRes with
  | .error _ => none
  | .ok token =>
      if createOk then
        if deliverOk then some ⟨cardInstanceId, token, false⟩ else none
      else none

/-- The HTTP requests `createAICard` issues: the instance-create POST
runs once a token is available, the deliver POST only after a
successful create. -/
def createAICardEffects (tokenRes : Except String String) (cardInstanceId : String)
    (createOk : Bool) : List Effect :=
  match tokenRes with
  | .error _ => []
  | .ok _ =>
      [.cardCreateInstance cardInstanceId] ++
      (if createOk then [.cardDeliver cardInstanceId] else [])

/-- ai-card.ts `streamAICard` (remote calls taken as succeeding; a
failing call throws in the source, which none of the verified claims
exercise): the first call per instance first switches the card to the
INPUTING status, then every call PUTs the full accumulated content. -/
def streamAICard (card : AICardInstance) (content : String) (finished : Bool) :
    List Effect × AICardInstance :=
  ((if !card.inputingStarted then
      [.cardPutStatus card.cardInstanceId AICardStatus.INPUTING ""]
    else []) ++
   [.cardPutStreaming card.cardInstanceId content finished],
   { card with inputingStarted := true })

/-- ai-card.ts `finishAICard`: a final streaming PUT followed by a
FINISHED status PUT with the same content. -/
def finishAICard (card : AICardInstance) (content : String) :
    List Effect × AICardInstance :=
  let s := streamAICard card content true
  (s.1 ++ [.cardPutStatus s.2.cardInstanceId AICardStatus.FINISHED content], s.2)

/-- ai-card.ts `failAICard`: one best-effort FAILED status PUT. -/
def failAICard (card : AICardInstance) (errorMessage : String) : List Effect :=
  [.cardPutStatus card.cardInstanceId AICardStatus.FAILED ("Error: " ++ errorMessage)]

end AiCard

namespace CardReplier

open AiCard

/-- card-replier.ts `AICardReplier.streaming`: guarded on the `card`
field being set by a successful `start`. -/
def streaming (card : Option AICardInstance) (content : String) :
    List Effect × Option AICardInstance :=
  match card with
  | none => ([.warnNotStarted], none)
  | some c =>
      let s := streamAICard c content false
      (s.1, some s.2)

/-- card-replier.ts `AICardReplier.finish`. -/
def finish (card : Option AICardInstance) (content : String) :
    List Effect × Option AICardInstance :=
  match card with
  | none => ([.warnNotStarted], none)
  | some c =>
      let s := finishAICard c content
      (s.1, some s.2)

/-- card-replier.ts `AICardReplier.fail`. -/
def fail (card : Option AICardInstance) (errorMessage : String) :
    List Effect × Option AICardInstance :=
  match card with
  | none => ([.warnNotStarted], none)
  | some c => (failAICard c errorMessage, some c)

end CardReplier

/- ===================== send.ts ======================================= -/

namespace Send

open AiCard

/-- send.ts markdown auto-detection: the regex test
"first character in #, *, >, - or any character among *, _, backtick,
#, [, ]" or the text containing a newline. -/
def hasMarkdownAuto (text : String) : Bool :=
  (match text.data with
   | c :: _ => c = '#' ∨ c = '*' ∨ c = '>' ∨ c = '-'
   | [] => false) ||
  text.data.any (fun c => c = '*' ∨ c = '_' ∨ c = Char.ofNat 96 ∨ c = '#' ∨ c = '[' ∨ c = ']') ||
  text.data.any (fun c => c = Char.ofNat 10)

/-- send.ts derived markdown title:
first line, leading `[#*\s\->]` run stripped, first 20 characters,
falling back to "Message" when empty. -/
def autoMarkdownTitle (text : String) : String :=
  let firstLine := text.data.takeWhile (fun c => c ≠ Char.ofNat 10)
  let cleaned := firstLine.dropWhile
    (fun c => c = '#' ∨ c = '*' ∨ c.isWhitespace ∨ c = '-' ∨ c = '>')
  let t := String.mk (cleaned.take 20)
  if t = "" then "Message" else t

/-- send.ts `sendDingTalkMessage`: one sessionWebhook POST, markdown or
plain text by the `useMarkdown`/auto-detection rule. -/
def sendDingTalkMessage (text : String) (useMarkdown : Option Bool)
    (title : Option String) (atUserId : Option String) : Effect :=
  let hasMarkdown := hasMarkdownAuto text
  let shouldUseMarkdown :=
    useMarkdown ≠ some false ∧ (useMarkdown = some true ∨ hasMarkdown)
  if shouldUseMarkdown then
    let markdownTitle :=
      match title with
      | some t => if t ≠ "" then t else autoMarkdownTitle text
      | none => autoMarkdownTitle text
    .webhookSend "markdown" (some markdownTitle)
      (match atUserId with
       | some a => text ++ " @" ++ a
       | none => text)
      (match atUserId with | some a => [a] | none => [])
  else
    .webhookSend "text" none text
      (match atUserId with | some a => [a] | none => [])

/-- send.ts `sendDingTalkTextMessage`: always a plain text POST. -/
def sendDingTalkTextMessage (text : String) (atUserId : Option String) : Effect :=
  .webhookSend "text" none text
    (match atUserId with | some a => [a] | none => [])

end Send

/- ===================== streaming-handler.ts =========================== -/

namespace StreamingHandler

open AiCard Send Session

/-- streaming-handler.ts `ExtractedContent`. -/
structure ExtractedContent where
  text : String
  messageType : String
  downloadCode : Option String := none
  downloadCodes : Option (List String) := none
deriving DecidableEq, Repr

/-- streaming-handler.ts `extractMessageContent` (switch on
`data.msgtype || "text"`). -/
def extractMessageContent (data : DingTalkIncomingMessage) : ExtractedContent :=
  let msgtype := match data.msgtype with
                 | some t => if t ≠ "" then t else "text"
                 | none => "text"
  if msgtype = "text" then
    ⟨jsTrim (data.textContent.getD ""), "text", none, none⟩
  else if msgtype = "richText" then
    match data.content with
    | some c =>
        (match safeParseRichText c with
         | some parsed =>
             let codes := Richtext.extractRichTextDownloadCodes parsed
             ⟨Richtext.extractRichTextContent parsed, "richText", none,
              if codes.length > 0 then some codes else none⟩
         | none =>
             ⟨(match c with
               | .str s _ => s
               | _ => "[富文本消息]"), "richText", none, none⟩)
    | none => ⟨"[富文本消息]", "richText", none, none⟩
  else if msgtype = "picture" ∨ msgtype = "image" then
    ⟨"用户发送了一张图片", "picture", data.downloadCode, none⟩
  else if msgtype = "voice" then
    ⟨"[语音消息]", "voice", none, none⟩
  else if msgtype = "file" then
    ⟨"[文件]", "file", none, none⟩
  else
    ⟨(let t := jsTrim (data.textContent.getD "")
      if t ≠ "" then t else "[" ++ msgtype ++ "消息]"), msgtype, none, none⟩

/-- streaming-handler.ts configuration surface read by
`handleDingTalkStreamingMessage`. -/
structure StreamingConfig where
  aiCardMode : Option String := none
  sessionTimeout : Option Int := none
  groupSessionScope : Option String := none
  enableMediaUpload : Option Bool := none
  systemPrompt : Option String := none
deriving Repr

/-- The agent gateway's SSE stream as an oracle: the chunks received
(each tagged with its `Date.now()` arrival time for the throttle
check), and an optional terminal error thrown after those chunks. -/
structure GatewayRun where
  chunks : List (String × Int)
  failure : Option String := none

/-- Remote-environment oracle for one `handleDingTalkStreamingMessage`
call: the ai-card token exchange, the generated card instance id, the
two card-creation HTTP outcomes, the gateway stream, the media
post-processors of media.ts (not under the provided sources; passed in
as opaque text transforms), and whether a stream client was provided
for media downloads. -/
structure StreamingEnv where
  tokenRes : Except String String
  cardInstanceId : String
  createOk : Bool
  deliverOk : Bool
  gateway : GatewayRun
  processLocalImages : String → String
  processFileMarkers : String → String
  hasClient : Bool

/-- The throttled card-update loop of the AI-card branch: folds the
gateway chunks, accumulating the full content and PUTting it whenever
at least 300ms (`updateInterval`) passed since the last update. -/
def cardStreamFold (card0 : AICardInstance) (chunks : List (String × Int)) :
    String × Int × AICardInstance × List Effect :=
  chunks.foldl
    (fun st c =>
      let acc := st.1 ++ c.1
      if c.2 - st.2.1 ≥ 300 then
        let s := streamAICard st.2.2.1 acc false
        (acc, c.2, s.2, st.2.2.2 ++ s.1)
      else (acc, st.2.1, st.2.2.1, st.2.2.2))
    ("", 0, card0, [])

/-- The AI-card branch after a successful create: stream the gateway,
then on success post-process and finish the card; on a gateway error
finish the card with the partial content plus the interruption notice
(the FINISHED update is taken as succeeding, as for `streamAICard`). -/
def cardBranch (card : AICardInstance) (env : StreamingEnv) : List Effect :=
  let folded := cardStreamFold card env.gateway.chunks
  let streamEffects := folded.2.2.2
  match env.gateway.failure with
  | none =>
      let post := env.processFileMarkers (env.processLocalImages folded.1)
      streamEffects ++ (finishAICard folded.2.2.1 post).1
  | some e =>
      let interrupted := folded.1 ++ "\n\n⚠️ 响应中断: " ++ e
      streamEffects ++ (finishAICard folded.2.2.1 interrupted).1

/-- The regular-message fallback branch: accumulate the whole gateway
stream, post-process, and send exactly one sessionWebhook message
(markdown mode), or an error text message when the gateway throws.
The webhook POST itself is taken as succeeding (its failure path only
adds the catch-all error send, which no verified claim exercises). -/
def fallbackBranch (env : StreamingEnv) (atUserId : Option String) : List Effect :=
  match env.gateway.failure with
  | none =>
      let fullResponse := String.join (env.gateway.chunks.map Prod.fst)
      let post := env.processFileMarkers (env.processLocalImages fullResponse)
      [sendDingTalkMessage (if post ≠ "" then post else "（无响应）")
        (some true) none atUserId]
  | some e =>
      [sendDingTalkTextMessage ("抱歉，处理请求时出错: " ++ e) atUserId]

/-- streaming-handler.ts `handleDingTalkStreamingMessage`: produces the
outbound-operation trace and the session map after the call.  Media
downloads only feed the gateway oracle, so they appear as
`mediaDownload` attempts; oapi-token and gateway-auth plumbing is not
an outbound message operation and is not traced. -/
def handleDingTalkStreamingMessage (config : StreamingConfig)
    (data : DingTalkIncomingMessage) (env : StreamingEnv)
    (sessions : SessionMap) (now : Int) : List Effect × SessionMap :=
  let content := extractMessageContent data
  let singleCode :=
    match content.downloadCode with
    | some c => if c ≠ "" then [c] else []
    | none => []
  if content.text = "" ∧ singleCode = [] ∧
      (content.downloadCodes.getD []).length = 0 then
    ([], sessions)
  else
    let codesToDownload :=
      match content.downloadCodes with
      | some cs => if cs.length > 0 then cs else singleCode
      | none => singleCode
    let downloadEffects :=
      if codesToDownload.length > 0 ∧ env.hasClient then
        codesToDownload.map Effect.mediaDownload
      else []
    let isDirect := data.conversationType = some "1"
    let senderId :=
      match data.senderStaffId with
      | some s => if s ≠ "" then s else data.conversationId
      | none => data.conversationId
    let groupSessionScope := (match config.groupSessionScope with
                              | some s => if s ≠ "" then s else "per-group"
                              | none => "per-group")
    let sessionIdentifier :=
      if isDirect then senderId
      else if groupSessionScope = "per-user" then data.conversationId ++ ":" ++ senderId
      else data.conversationId
    let sessionTimeout := config.sessionTimeout.getD DEFAULT_SESSION_TIMEOUT
    let atUserId := if !isDirect then some senderId else none
    if isNewSessionCommand content.text then
      let g := getSessionKey sessions sessionIdentifier true sessionTimeout now
      (downloadEffects ++
        [sendDingTalkMessage "✨ 已开启新会话，之前的对话已清空。" (some false) none atUserId],
       g.2.2)
    else
      let g := getSessionKey sessions sessionIdentifier false sessionTimeout now
      let aiCardEnabled := config.aiCardMode ≠ some "disabled"
      if aiCardEnabled then
        let createEffects := createAICardEffects env.tokenRes env.cardInstanceId env.createOk
        match createAICard env.tokenRes env.cardInstanceId env.createOk env.deliverOk with
        | some card => (downloadEffects ++ createEffects ++ cardBranch card env, g.2.2)
        | none => (downloadEffects ++ createEffects ++ fallbackBranch env atUserId, g.2.2)
      else
        (downloadEffects ++ fallbackBranch env atUserId, g.2.2)

end StreamingHandler

/- ===================================================================== -/
/- =====================   THEOREMS   ================================== -/
/- ===================================================================== -/

/- ---------- generic helpers ---------- -/

theorem string_mk_data (s : String) : String.mk s.data = s := by
  cases s
  rfl

theorem take_append_take (l m : List String) (n : Nat) :
    ((l.take n) ++ m).take n = (l ++ m).take n := by
  rw [List.take_append_eq_append_take, List.take_append_eq_append_take, List.take_take,
    Nat.min_self, List.length_take]
  have hm : n - min n l.length = n - l.length := by omega
  rw [hm]

theorem drop_length_takeWhile (p : Char → Bool) (l : List Char) :
    l.drop (l.takeWhile p).length = l.dropWhile p := by
  induction l with
  | nil => rfl
  | cons c cs ih =>
      by_cases h : p c
      · simp [List.takeWhile_cons, List.dropWhile_cons, h, ih]
      · simp [List.takeWhile_cons, List.dropWhile_cons, h]

/- ---------- Claim C9 ---------- -/

/-- Claim C9: calling `socketCallBackResponse` with an empty `messageId`
is a complete no-op for every outcome value — no acknowledgement
envelope is constructed and nothing is sent on the socket. -/
theorem claim_C9 (params : Stream.AckParams) :
    Stream.socketCallBackResponse "" params = none := by
  simp [Stream.socketCallBackResponse]

/- ---------- Claim C8 ---------- -/

/-- Claim C8: every acknowledgement envelope built for a non-empty
`messageId` carries code 200 on success and 500 on failure, and its
`data` field is the JSON-encoded string of the ack's data object — a
second serialization inside the envelope, preserving the
double-encoding wire contract. -/
theorem claim_C8 (messageId : String) (params : Stream.AckParams)
    (h : messageId ≠ "") :
    ∃ msg : String,
      Stream.socketCallBackResponse messageId params =
        some (Json.obj
          [("code", .num (if params.success then 200 else 500)),
           ("headers", Frames.AckHeaders.toDict
              ⟨some messageId, some Frames.CONTENT_TYPE_APPLICATION_JSON⟩),
           ("message", .str msg),
           ("data", .str (Json.render (Json.obj [("response", Json.str msg)])))]) := by
  refine ⟨?_, ?_⟩
  · exact
      match params.message with
      | some m => m
      | none =>
          if params.success then "OK"
          else match params.error with
               | some e => e
               | none => "ERROR"
  · simp only [Stream.socketCallBackResponse, h, if_false, Frames.AckMessage.toDict,
      Frames.AckMessage.STATUS_OK, Frames.AckMessage.STATUS_SYSTEM_EXCEPTION]

/-- Witness for C8 at a concrete input: a success ack for "m1". -/
theorem claim_C8_witness :
    ("m1" : String) ≠ "" ∧
    ∃ msg : String,
      Stream.socketCallBackResponse "m1" ⟨true, none, none⟩ =
        some (Json.obj
          [("code", .num (if (true : Bool) then 200 else 500)),
           ("headers", Frames.AckHeaders.toDict
              ⟨some "m1", some Frames.CONTENT_TYPE_APPLICATION_JSON⟩),
           ("message", .str msg),
           ("data", .str (Json.render (Json.obj [("response", Json.str msg)])))]) :=
  ⟨by decide, claim_C8 "m1" ⟨true, none, none⟩ (by decide)⟩

/- ---------- Claim C4 ---------- -/

/-- Claim C4: on an `AICardReplier` whose `start()` has not succeeded
(`card` is `null`), each of `streaming`, `finish` and `fail` emits only
the "not started" warning, performs no remote card operation and no
webhook send, leaves the card unset, and returns normally. -/
theorem claim_C4 (content errorMessage : String) :
    CardReplier.streaming none content = ([.warnNotStarted], none) ∧
    CardReplier.finish none content = ([.warnNotStarted], none) ∧
    CardReplier.fail none errorMessage = ([.warnNotStarted], none) ∧
    ([AiCard.Effect.warnNotStarted].filter AiCard.Effect.isCardOp = []) ∧
    ([AiCard.Effect.warnNotStarted].filter AiCard.Effect.isWebhookSend = []) :=
  ⟨rfl, rfl, rfl, rfl, rfl⟩

/- ---------- Claim C6 ---------- -/

/-- Claim C6: a proactive send into a conversation for which no inbound
message has ever been observed (no cached session webhook) returns a
structured failure naming the missing reply handle, without throwing. -/
theorem claim_C6 (account : Proactive.ResolvedAccount) (cache : Monitor.WebhookMap)
    (conversationId : String) (tokenRes : Except String String)
    (postStatus : Except String Int)
    (hId : account.clientId ≠ "") (hSecret : account.clientSecret ≠ "")
    (hMiss : Monitor.getSessionWebhook cache account.accountId conversationId = none) :
    Proactive.sendDingtalkTextToConversation account cache conversationId tokenRes postStatus =
      ⟨false, some ("Unknown sessionWebhook for conversationId=" ++ conversationId ++
        ". Send a message in that chat first to establish a stream context.")⟩ := by
  simp only [Proactive.sendDingtalkTextToConversation, hId, hSecret, hMiss]
  simp

/-- Witness for C6: configured credentials, empty webhook cache. -/
theorem claim_C6_witness :
    ("id" : String) ≠ "" ∧ ("secret" : String) ≠ "" ∧
    Monitor.getSessionWebhook (fun _ => none) "default" "cidXYZ" = none ∧
    Proactive.sendDingtalkTextToConversation ⟨"default", "id", "secret"⟩ (fun _ => none)
        "cidXYZ" (.ok "tok") (.ok 200) =
      ⟨false, some ("Unknown sessionWebhook for conversationId=" ++ "cidXYZ" ++
        ". Send a message in that chat first to establish a stream context.")⟩ :=
  ⟨by decide, by decide, rfl,
    claim_C6 ⟨"default", "id", "secret"⟩ (fun _ => none) "cidXYZ" (.ok "tok") (.ok 200)
      (by decide) (by decide) rfl⟩

/- ---------- Claim C1 ---------- -/

/-- Claim C1, counterexample: a CALLBACK frame with a non-empty
`messageId` whose topic has no registered handler produces only the
unknown-topic warning — the routing step sends no acknowledgement at
all, so it does not send "exactly one success acknowledgement". -/
theorem claim_C1_counterexample :
    Stream.routeMessage [] false false
        ⟨some "CALLBACK", some "topicX", some "m1", some "d"⟩ =
      [.warnUnknownTopic "topicX"] ∧
    ((Stream.routeMessage [] false false
        ⟨some "CALLBACK", some "topicX", some "m1", some "d"⟩).filter
      Stream.StreamEffect.isAck).length = 0 := by
  constructor <;> rfl

/-- Claim C1, amended: for every inbound CALLBACK frame whose topic has
no registered handler (and whatever its `messageId`), the routing step
sends no acknowledgement and produces no observable effect other than
one unknown-topic warning log. -/
theorem claim_C1_amended (callbackTopics : List String)
    (systemHandlers eventHandlers : Bool) (frame : Stream.RawFrame)
    (hType : frame.type = some "CALLBACK")
    (hNoHandler : frame.topic.getD "" ∉ callbackTopics)
    (hMsgId : frame.messageId.getD "" ≠ "") :
    Stream.routeMessage callbackTopics systemHandlers eventHandlers frame =
      [.warnUnknownTopic (frame.topic.getD "")] := by
  simp only [Stream.routeMessage, hType, Option.getD_some]
  simp [hNoHandler]

/-- Witness for the amended C1 at a concrete frame. -/
theorem claim_C1_amended_witness :
    (some "CALLBACK" : Option String) = some "CALLBACK" ∧
    ((some "topicX" : Option String).getD "" ∉ (["/v1.0/im/bot/messages/get"] : List String)) ∧
    ((some "m1" : Option String).getD "" ≠ "") ∧
    Stream.routeMessage ["/v1.0/im/bot/messages/get"] true true
        ⟨some "CALLBACK", some "topicX", some "m1", some "d"⟩ =
      [.warnUnknownTopic ((some "topicX" : Option String).getD "")] :=
  ⟨rfl, by decide, by decide,
    claim_C1_amended ["/v1.0/im/bot/messages/get"] true true
      ⟨some "CALLBACK", some "topicX", some "m1", some "d"⟩ rfl (by decide) (by decide)⟩

/- ---------- Claim C2 ---------- -/

/-- Claim C2, counterexample: on the ai-card credential cache, a
two-call sequence returns a cached token with only two minutes of
remaining validity — less than the five-minute safety margin — without
triggering any fresh exchange.  Call one at time 0 caches a token whose
server validity ends at 7,200,000 ms; call two at 7,080,000 ms (two
minutes before expiry) is answered from the cache (`true` flag), and
120,000 ms < 300,000 ms. -/
theorem claim_C2_counterexample :
    AiCard.getAccessToken ⟨none, 0⟩ 0 (.ok ⟨"tok", 7200⟩) =
      .ok ("tok", ⟨some "tok", 7200000⟩, false) ∧
    AiCard.getAccessToken ⟨some "tok", 7200000⟩ 7080000 (.ok ⟨"tok", 7200⟩) =
      .ok ("tok", ⟨some "tok", 7200000⟩, true) ∧
    (7200000 - 7080000 : Int) = 120000 ∧ (120000 : Int) < 300000 := by
  refine ⟨rfl, ?_, by decide, by decide⟩
  rfl

/-- Claim C2, amended: the stream client's cache honours the
five-minute margin — a cache hit implies more than five minutes of
server-side validity remain, and at or below the margin a fresh
synchronous exchange is performed — while the ai-card cache guarantees
only a one-minute margin: a cache hit there implies merely that more
than 60 seconds remain. -/
theorem claim_C2_amended :
    (∀ (fetchTime : Int) (resp : Stream.TokenResponse) (entry : Stream.CachedToken)
        (tok0 : String),
      Stream.refreshAccessToken fetchTime (.ok resp) = .ok (tok0, some entry) →
      ∀ (now : Int) (ex : Except String Stream.TokenResponse)
          (tok : String) (c : Option Stream.CachedToken),
        (Stream.getAccessToken (some entry) now ex = .ok (tok, c, true) →
          (fetchTime + resp.expireIn) - now > 5 * 60) ∧
        ((fetchTime + resp.expireIn) - now ≤ 5 * 60 →
          Stream.getAccessToken (some entry) now ex =
            (match Stream.refreshAccessToken now ex with
             | .error m => .error m
             | .ok p => .ok (p.1, p.2, false)))) ∧
    (∀ (st : AiCard.TokenCacheState) (now : Int)
        (ex : Except String Stream.TokenResponse) (tok : String)
        (st2 : AiCard.TokenCacheState),
      AiCard.getAccessToken st now ex = .ok (tok, st2, true) →
        st.accessTokenExpiry - now > 60000) := by
  constructor
  · intro fetchTime resp entry tok0 hRefresh now ex tok c
    have hEntry : entry.expireTime = fetchTime + resp.expireIn - 5 * 60 := by
      simp only [Stream.refreshAccessToken] at hRefresh
      by_cases hval : resp.accessToken = "" ∨ resp.expireIn = 0
      · simp [hval] at hRefresh
      · simp only [hval, if_false, Except.ok.injEq, Prod.mk.injEq,
          Option.some.injEq] at hRefresh
        rw [← hRefresh.2]
    constructor
    · intro hCall
      simp only [Stream.getAccessToken] at hCall
      by_cases hFresh : now < entry.expireTime
      · omega
      · simp only [hFresh, if_false] at hCall
        cases hEx : Stream.refreshAccessToken now ex with
        | error m => simp [hEx] at hCall
        | ok p =>
            cases p with
            | mk t c2 => simp [hEx] at hCall
    · intro hLow
      have hFresh : ¬ now < entry.expireTime := by omega
      simp only [Stream.getAccessToken, hFresh, if_false]
      cases hEx : Stream.refreshAccessToken now ex with
      | error m => rfl
      | ok p => cases p with | mk t c2 => rfl
  · intro st now ex tok st2 hCall
    simp only [AiCard.getAccessToken] at hCall
    cases hTok : st.accessToken with
    | none =>
        simp only [hTok] at hCall
        cases hEx : AiCard.refreshAccessToken now ex with
        | error m => simp [hEx] at hCall
        | ok p => cases p with | mk t s2 => simp [hEx] at hCall
    | some t =>
        simp only [hTok] at hCall
        by_cases hGuard : st.accessTokenExpiry > now + 60000
        · omega
        · simp only [hGuard, if_false] at hCall
          cases hEx : AiCard.refreshAccessToken now ex with
          | error m => simp [hEx] at hCall
          | ok p => cases p with | mk t2 s2 => simp [hEx] at hCall

/-- Witness for the amended C2: the stream cache entry written at time
0 for a 7200-second token is served from cache at time 1000 with more
than five minutes left, and the ai-card cache hit of the counterexample
indeed has more than one minute left. -/
theorem claim_C2_amended_witness :
    Stream.refreshAccessToken 0 (.ok ⟨"tok", 7200⟩) = .ok ("tok", some ⟨"tok", 6900⟩) ∧
    Stream.getAccessToken (some ⟨"tok", 6900⟩) 1000 (.error "unused") =
      .ok ("tok", some ⟨"tok", 6900⟩, true) ∧
    ((0 : Int) + (7200 : Int)) - 1000 > 5 * 60 ∧
    (7200000 : Int) - 7080000 > 60000 :=
  ⟨rfl, rfl,
    ((claim_C2_amended.1 0 ⟨"tok", 7200⟩ ⟨"tok", 6900⟩ "tok" rfl 1000 (.error "unused")
        "tok" (some ⟨"tok", 6900⟩)).1 rfl),
    (claim_C2_amended.2 ⟨some "tok", 7200000⟩ 7080000 (.ok ⟨"tok", 7200⟩) "tok"
        ⟨some "tok", 7200000⟩ rfl)⟩

/- ---------- Claim C10 ---------- -/

/-- Claim C10, counterexample: the first-ever `getSessionKey` call for
a sender does not always return "dingtalk:senderId" with isNew=false —
with `forceNew = true` (e.g. the sender's very first message is a reset
command) it returns a timestamped key with isNew=true. -/
theorem claim_C10_counterexample :
    (Session.getSessionKey (fun _ => none) "u1" true 1800000 1000).1 =
      "dingtalk:u1:1000" ∧
    (Session.getSessionKey (fun _ => none) "u1" true 1800000 1000).2.1 = true ∧
    ("dingtalk:u1:1000" : String) ≠ "dingtalk:u1" := by
  refine ⟨rfl, rfl, by decide⟩

/-- Claim C10, amended: the first-ever `getSessionKey` call with
`forceNew = false` returns "dingtalk:senderId" with isNew=false (a
`forceNew = true` call instead returns a timestamped key with
isNew=true); every subsequent `forceNew = false` call within
`sessionTimeout` of the recorded activity returns the stored sessionKey
with isNew=false, updating only that sender's `lastActivity`. -/
theorem claim_C10_amended :
    (∀ (sessions : Session.SessionMap) (senderId : String) (timeout now : Int),
      sessions senderId = none →
      (Session.getSessionKey sessions senderId false timeout now).1 =
          "dingtalk:" ++ senderId ∧
      (Session.getSessionKey sessions senderId false timeout now).2.1 = false ∧
      (Session.getSessionKey sessions senderId false timeout now).2.2 senderId =
          some ⟨now, "dingtalk:" ++ senderId⟩ ∧
      (∀ other, other ≠ senderId →
        (Session.getSessionKey sessions senderId false timeout now).2.2 other =
          sessions other)) ∧
    (∀ (sessions : Session.SessionMap) (senderId : String) (timeout now : Int)
        (existing : Session.UserSession),
      sessions senderId = some existing →
      now - existing.lastActivity ≤ timeout →
      (Session.getSessionKey sessions senderId false timeout now).1 =
          existing.sessionId ∧
      (Session.getSessionKey sessions senderId false timeout now).2.1 = false ∧
      (Session.getSessionKey sessions senderId false timeout now).2.2 senderId =
          some ⟨now, existing.sessionId⟩ ∧
      (∀ other, other ≠ senderId →
        (Session.getSessionKey sessions senderId false timeout now).2.2 other =
          sessions other)) ∧
    (∀ (sessions : Session.SessionMap) (senderId : String) (timeout now : Int),
      (Session.getSessionKey sessions senderId true timeout now).1 =
          "dingtalk:" ++ senderId ++ ":" ++ toString now ∧
      (Session.getSessionKey sessions senderId true timeout now).2.1 = true) := by
  refine ⟨?_, ?_, ?_⟩
  · intro sessions senderId timeout now hNone
    refine ⟨?_, ?_, ?_, ?_⟩
    · simp [Session.getSessionKey, hNone]
    · simp [Session.getSessionKey, hNone]
    · simp [Session.getSessionKey, hNone, Session.SessionMap.set]
    · intro other hne
      simp [Session.getSessionKey, hNone, Session.SessionMap.set, hne]
  · intro sessions senderId timeout now existing hSome hWithin
    have hNotOver : ¬ now - existing.lastActivity > timeout := by omega
    refine ⟨?_, ?_, ?_, ?_⟩
    · simp [Session.getSessionKey, hSome, hNotOver]
    · simp [Session.getSessionKey, hSome, hNotOver]
    · simp [Session.getSessionKey, hSome, hNotOver, Session.SessionMap.set]
    · intro other hne
      simp [Session.getSessionKey, hSome, hNotOver, Session.SessionMap.set, hne]
  · intro sessions senderId timeout now
    simp [Session.getSessionKey]

/-- Witness for the amended C10: a fresh map, then a repeat call two
minutes later within a 30-minute timeout. -/
theorem claim_C10_amended_witness :
    ((fun _ => none : Session.SessionMap) "u1" = none ∧
      (Session.getSessionKey (fun _ => none) "u1" false 1800000 1000).1 = "dingtalk:u1") ∧
    ((fun k => if k = "u1" then some ⟨1000, "dingtalk:u1"⟩ else none :
        Session.SessionMap) "u1" = some ⟨1000, "dingtalk:u1"⟩ ∧
      (121000 : Int) - 1000 ≤ 1800000 ∧
      (Session.getSessionKey
          (fun k => if k = "u1" then some ⟨1000, "dingtalk:u1"⟩ else none)
          "u1" false 1800000 121000).1 = "dingtalk:u1" ∧
      (Session.getSessionKey
          (fun k => if k = "u1" then some ⟨1000, "dingtalk:u1"⟩ else none)
          "u1" false 1800000 121000).2.1 = false) :=
  ⟨⟨rfl, (claim_C10_amended.1 (fun _ => none) "u1" 1800000 1000 rfl).1⟩,
    ⟨by decide, by decide,
      (claim_C10_amended.2.1
        (fun k => if k = "u1" then some ⟨1000, "dingtalk:u1"⟩ else none)
        "u1" 1800000 121000 ⟨1000, "dingtalk:u1"⟩ (by decide) (by decide)).1,
      (claim_C10_amended.2.1
        (fun k => if k = "u1" then some ⟨1000, "dingtalk:u1"⟩ else none)
        "u1" 1800000 121000 ⟨1000, "dingtalk:u1"⟩ (by decide) (by decide)).2.1⟩⟩

/- ---------- Claim C5 ---------- -/

mutual

theorem codesGo_eq (n : Richtext.RichNode) (acc : List String)
    (h : acc.length ≤ Richtext.MAX_RICHTEXT_IMAGES) :
    Richtext.codesGo n acc = (acc ++ Richtext.rtCodes n).take Richtext.MAX_RICHTEXT_IMAGES := by
  by_cases hc : acc.length ≥ Richtext.MAX_RICHTEXT_IMAGES
  · have hl : acc.length = Richtext.MAX_RICHTEXT_IMAGES := le_antisymm h hc
    rw [Richtext.codesGo.eq_def]
    simp only [hc, if_true, List.take_append_eq_append_take, hl]
    simp [List.take_of_length_le, hl]
  · match n with
    | .prim =>
        rw [Richtext.codesGo.eq_def]
        simp only [hc, if_false]
        rw [Richtext.rtCodes]
        simp only [List.append_nil]
        exact (List.take_of_length_le h).symm
    | .arr items =>
        rw [Richtext.codesGo.eq_def]
        simp only [hc, if_false]
        rw [Richtext.rtCodes]
        exact codesGoList_eq items acc h
    | .node ty tx dc pdc rich cont =>
        rw [Richtext.codesGo.eq_def]
        simp only [hc, if_false]
        rw [Richtext.rtCodes]
        have heq : (if ty = some "picture" then
            match Richtext.pickCode dc pdc with
            | some c => acc ++ [c]
            | none => acc
          else acc) = acc ++ (if ty = some "picture" then
            match Richtext.pickCode dc pdc with
            | some c => [c]
            | none => []
          else []) := by
          by_cases hty : ty = some "picture"
          · simp only [hty, if_true]
            match Richtext.pickCode dc pdc with
            | some c => rfl
            | none => simp
          · simp [hty]
        rw [heq]
        have hlen : (acc ++ (if ty = some "picture" then
            match Richtext.pickCode dc pdc with
            | some c => [c]
            | none => []
          else [])).length ≤ Richtext.MAX_RICHTEXT_IMAGES := by
          by_cases hty : ty = some "picture"
          · simp only [hty, if_true]
            match Richtext.pickCode dc pdc with
            | some c => simp; omega
            | none => simp; omega
          · simp [hty]; omega
        rw [codesGoOpt_eq rich _ hlen]
        rw [codesGoOpt_eq cont _ (by simp only [List.length_take]; omega)]
        rw [take_append_take]
        simp [List.append_assoc]

theorem codesGoOpt_eq (o : Option Richtext.RichNode) (acc : List String)
    (h : acc.length ≤ Richtext.MAX_RICHTEXT_IMAGES) :
    Richtext.codesGoOpt o acc =
      (acc ++ Richtext.rtCodesOpt o).take Richtext.MAX_RICHTEXT_IMAGES := by
  match o with
  | none =>
      rw [Richtext.codesGoOpt, Richtext.rtCodesOpt]
      simp only [List.append_nil]
      exact (List.take_of_length_le h).symm
  | some r =>
      rw [Richtext.codesGoOpt, Richtext.rtCodesOpt]
      exact codesGo_eq r acc h

theorem codesGoList_eq (l : List Richtext.RichNode) (acc : List String)
    (h : acc.length ≤ Richtext.MAX_RICHTEXT_IMAGES) :
    Richtext.codesGoList l acc =
      (acc ++ Richtext.rtCodesList l).take Richtext.MAX_RICHTEXT_IMAGES := by
  match l with
  | [] =>
      rw [Richtext.codesGoList, Richtext.rtCodesList]
      simp only [List.append_nil]
      exact (List.take_of_length_le h).symm
  | x :: xs =>
      rw [Richtext.codesGoList, Richtext.rtCodesList]
      rw [codesGo_eq x acc h, codesGoList_eq xs _ (by simp only [List.length_take]; omega)]
      rw [take_append_take, List.append_assoc]

end

mutual

theorem rtParts_eq_docItems (n : Richtext.RichNode) :
    Richtext.rtParts n = (Richtext.docItems n).map Richtext.RichItem.part := by
  match n with
  | .prim => rfl
  | .arr items =>
      rw [Richtext.rtParts, Richtext.docItems]
      exact rtPartsList_eq_docItems items
  | .node ty tx dc pdc rich cont =>
      rw [Richtext.rtParts.eq_def, Richtext.docItems.eq_def]
      simp only []
      rw [List.map_append, List.map_append]
      rw [rtPartsOpt_eq_docItems rich, rtPartsOpt_eq_docItems cont]
      congr 1
      congr 1
      by_cases hty : ty = some "picture"
      · simp [hty, Richtext.RichItem.part]
      · simp only [hty, if_false]
        match tx with
        | some s =>
            by_cases hs : s = ""
            · simp [hs]
            · simp [hs, Richtext.RichItem.part]
        | none => rfl

theorem rtPartsOpt_eq_docItems (o : Option Richtext.RichNode) :
    Richtext.rtPartsOpt o = (Richtext.docItemsOpt o).map Richtext.RichItem.part := by
  match o with
  | none => rfl
  | some r =>
      rw [Richtext.rtPartsOpt, Richtext.docItemsOpt]
      exact rtParts_eq_docItems r

theorem rtPartsList_eq_docItems (l : List Richtext.RichNode) :
    Richtext.rtPartsList l = (Richtext.docItemsList l).map Richtext.RichItem.part := by
  match l with
  | [] => rfl
  | x :: xs =>
      rw [Richtext.rtPartsList, Richtext.docItemsList, List.map_append]
      rw [rtParts_eq_docItems x, rtPartsList_eq_docItems xs]

end

mutual

theorem rtCodes_eq_docItems (n : Richtext.RichNode) :
    Richtext.rtCodes n = (Richtext.docItems n).filterMap Richtext.RichItem.code := by
  match n with
  | .prim => rfl
  | .arr items =>
      rw [Richtext.rtCodes, Richtext.docItems]
      exact rtCodesList_eq_docItems items
  | .node ty tx dc pdc rich cont =>
      rw [Richtext.rtCodes.eq_def, Richtext.docItems.eq_def]
      simp only []
      rw [List.filterMap_append, List.filterMap_append]
      rw [rtCodesOpt_eq_docItems rich, rtCodesOpt_eq_docItems cont]
      congr 1
      congr 1
      by_cases hty : ty = some "picture"
      · simp only [hty, if_true, List.filterMap]
        match Richtext.pickCode dc pdc with
        | some c => rfl
        | none => rfl
      · simp only [hty, if_false]
        match tx with
        | some s =>
            by_cases hs : s = ""
            · simp [hs]
            · simp [hs, Richtext.RichItem.code]
        | none => rfl

theorem rtCodesOpt_eq_docItems (o : Option Richtext.RichNode) :
    Richtext.rtCodesOpt o = (Richtext.docItemsOpt o).filterMap Richtext.RichItem.code := by
  match o with
  | none => rfl
  | some r =>
      rw [Richtext.rtCodesOpt, Richtext.docItemsOpt]
      exact rtCodes_eq_docItems r

theorem rtCodesList_eq_docItems (l : List Richtext.RichNode) :
    Richtext.rtCodesList l = (Richtext.docItemsList l).filterMap Richtext.RichItem.code := by
  match l with
  | [] => rfl
  | x :: xs =>
      rw [Richtext.rtCodesList, Richtext.docItemsList, List.filterMap_append]
      rw [rtCodes_eq_docItems x, rtCodesList_eq_docItems xs]

end

/-- Claim C5: `extractRichTextContent` is the document-order
concatenation of text nodes with every picture node replaced by the
fixed placeholder (then trimmed, with the empty-result fallback of the
source), `extractRichTextDownloadCodes` is the document-order code list
capped at `MAX_RICHTEXT_IMAGES = 10`, and a payload of 15 picture nodes
yields exactly 10 codes. -/
theorem claim_C5 :
    (∀ rt : Richtext.RichNode,
      Richtext.extractRichTextContent rt =
        if rt.isPrimB then ""
        else
          (let s := jsTrim (String.join ((Richtext.docItems rt).map Richtext.RichItem.part))
           if s = "" then "[富文本消息]" else s)) ∧
    (∀ rt : Richtext.RichNode,
      Richtext.extractRichTextDownloadCodes rt =
        ((Richtext.docItems rt).filterMap Richtext.RichItem.code).take
          Richtext.MAX_RICHTEXT_IMAGES) ∧
    (Richtext.extractRichTextDownloadCodes (Richtext.picturePayload 15)).length = 10 ∧
    Richtext.extractRichTextDownloadCodes (Richtext.picturePayload 15) =
      ((List.range 10).map (fun i => "code" ++ toString i)) := by
  refine ⟨?_, ?_, ?_, ?_⟩
  · intro rt
    match rt with
    | .prim => rfl
    | .arr items =>
        rw [Richtext.extractRichTextContent.eq_def]
        simp only [Richtext.RichNode.isPrimB, Bool.false_eq_true, if_false]
        rw [rtParts_eq_docItems]
    | .node ty tx dc pdc rich cont =>
        rw [Richtext.extractRichTextContent.eq_def]
        simp only [Richtext.RichNode.isPrimB, Bool.false_eq_true, if_false]
        rw [rtParts_eq_docItems]
  · intro rt
    match rt with
    | .prim => rfl
    | .arr items =>
        rw [Richtext.extractRichTextDownloadCodes.eq_def]
        simp only []
        rw [codesGo_eq _ [] (by simp)]
        rw [rtCodes_eq_docItems]
        rfl
    | .node ty tx dc pdc rich cont =>
        rw [Richtext.extractRichTextDownloadCodes.eq_def]
        simp only []
        rw [codesGo_eq _ [] (by simp)]
        rw [rtCodes_eq_docItems]
        rfl
  · rfl
  · rfl

/- ---------- Claim C7 ---------- -/

theorem stripBotMention_nil :
    Bot.stripBotMention (String.mk []) = jsTrim (String.mk []) := rfl

theorem stripBotMention_cons (c : Char) (rest : List Char) :
    Bot.stripBotMention (String.mk (c :: rest)) =
      if c = '@' then
        (if rest.takeWhile (fun ch => !ch.isWhitespace) = [] then
          jsTrim (String.mk (c :: rest))
        else
          jsTrim (String.mk
            ((rest.drop (rest.takeWhile (fun ch => !ch.isWhitespace)).length).dropWhile
              Char.isWhitespace)))
      else jsTrim (String.mk (c :: rest)) := by
  rw [Bot.stripBotMention.eq_def]

/-- Claim C7: `parseDingTalkMessage` reports `mentionedBot` exactly
when the in-at-list flag is set or the mention-target list is
non-empty, and the extracted text is the raw content with at most one
leading `@name` token (plus its trailing whitespace) removed — the
removed prefix is either empty or one `@`-token followed by whitespace,
so every `@` character after the start is untouched. -/
theorem claim_C7 :
    (∀ m : DingTalkIncomingMessage,
      (Bot.parseDingTalkMessage m).mentionedBot =
        (m.isInAtList || !(m.atUsers.getD []).isEmpty)) ∧
    (∀ m : DingTalkIncomingMessage,
      (Bot.parseDingTalkMessage m).content =
        Bot.stripBotMention (Bot.parseMessageContent m)) ∧
    (∀ s : String, ∃ removed rest : List Char,
      s.data = removed ++ rest ∧
      Bot.stripBotMention s = jsTrim (String.mk rest) ∧
      (removed = [] ∨
        ∃ tok ws : List Char,
          removed = '@' :: (tok ++ ws) ∧ tok ≠ [] ∧
          (∀ c ∈ tok, c.isWhitespace = false) ∧
          (∀ c ∈ ws, c.isWhitespace = true))) := by
  refine ⟨?_, ?_, ?_⟩
  · intro m
    simp only [Bot.parseDingTalkMessage, Bot.checkBotMentioned]
    cases hAt : m.isInAtList
    · simp only [Bool.false_eq_true, if_false, Bool.false_or]
      cases hUsers : m.atUsers with
      | none => rfl
      | some l => rfl
    · simp
  · intro m
    rfl
  · intro s
    obtain ⟨sdata⟩ := s
    match sdata with
    | [] => exact ⟨[], [], rfl, stripBotMention_nil, Or.inl rfl⟩
    | c :: rest0 =>
        by_cases hc : c = '@'
        · subst hc
          by_cases htok : rest0.takeWhile (fun ch => !ch.isWhitespace) = []
          · refine ⟨[], '@' :: rest0, rfl, ?_, Or.inl rfl⟩
            rw [stripBotMention_cons, if_pos rfl, if_pos htok]
          · set tok := rest0.takeWhile (fun ch => !ch.isWhitespace) with htokdef
            set dropped := rest0.drop tok.length with hdropdef
            set ws := dropped.takeWhile (fun ch => ch.isWhitespace) with hwsdef
            set rest1 := dropped.dropWhile Char.isWhitespace with hrestdef
            have hdrop_eq : dropped = rest0.dropWhile (fun ch => !ch.isWhitespace) := by
              rw [hdropdef, htokdef, drop_length_takeWhile]
            have hsplit0 : tok ++ dropped = rest0 := by
              rw [hdrop_eq, htokdef]
              exact List.takeWhile_append_dropWhile _ _
            have hsplit1 : ws ++ rest1 = dropped := by
              rw [hwsdef, hrestdef]
              exact List.takeWhile_append_dropWhile _ _
            refine ⟨'@' :: (tok ++ ws), rest1, ?_, ?_,
              Or.inr ⟨tok, ws, rfl, htok, ?_, ?_⟩⟩
            · show '@' :: rest0 = ('@' :: (tok ++ ws)) ++ rest1
              simp only [List.cons_append, List.cons.injEq, true_and]
              rw [List.append_assoc, hsplit1, hsplit0]
            · rw [stripBotMention_cons, if_pos rfl, if_neg htok]
            · intro ch hch
              have := List.mem_takeWhile_imp (htokdef ▸ hch)
              simpa using this
            · intro ch hch
              have := List.mem_takeWhile_imp (hwsdef ▸ hch)
              simpa using this
        · refine ⟨[], c :: rest0, rfl, ?_, Or.inl rfl⟩
          rw [stripBotMention_cons, if_neg hc]

/- ---------- Claim C3 ---------- -/

/-- Claim C3: if the create-instance or the deliver HTTP call fails,
`createAICard` returns `none` instead of raising; in that case
`handleDingTalkStreamingMessage` falls back to non-streaming mode and
produces exactly one outbound webhook send carrying the full
accumulated (post-processed) agent response — the only effects are the
attempted card-creation calls plus that single send, and no card
streaming operation occurs. -/
theorem claim_C3 :
    (∀ (tokenRes : Except String String) (cardId : String) (createOk deliverOk : Bool),
      (createOk = false ∨ deliverOk = false) →
      AiCard.createAICard tokenRes cardId createOk deliverOk = none) ∧
    (∀ (config : StreamingHandler.StreamingConfig) (data : DingTalkIncomingMessage)
        (env : StreamingHandler.StreamingEnv) (sessions : Session.SessionMap)
        (now : Int) (s tok : String),
      data.msgtype = some "text" →
      data.textContent = some s →
      jsTrim s ≠ "" →
      Session.isNewSessionCommand (jsTrim s) = false →
      data.conversationType = some "1" →
      config.aiCardMode ≠ some "disabled" →
      env.tokenRes = .ok tok →
      (env.createOk = false ∨ env.deliverOk = false) →
      env.gateway.failure = none →
      (StreamingHandler.handleDingTalkStreamingMessage config data env sessions now).1 =
        [.cardCreateInstance env.cardInstanceId] ++
        (if env.createOk then [.cardDeliver env.cardInstanceId] else []) ++
        [Send.sendDingTalkMessage
          (let post := env.processFileMarkers (env.processLocalImages
            (String.join (env.gateway.chunks.map Prod.fst)))
           if post ≠ "" then post else "（无响应）")
          (some true) none none] ∧
      ((StreamingHandler.handleDingTalkStreamingMessage config data env sessions now).1.filter
          AiCard.Effect.isWebhookSend) =
        [Send.sendDingTalkMessage
          (let post := env.processFileMarkers (env.processLocalImages
            (String.join (env.gateway.chunks.map Prod.fst)))
           if post ≠ "" then post else "（无响应）")
          (some true) none none]) := by
  constructor
  · intro tokenRes cardId createOk deliverOk hFail
    match tokenRes with
    | .error e => rfl
    | .ok token =>
        rcases hFail with hF | hF <;> subst hF
        · rfl
        · simp [AiCard.createAICard]
  · intro config data env sessions now s tok hType hText hTrim hNotCmd hDirect
      hCardMode hTok hFail hGw
    have hContent : StreamingHandler.extractMessageContent data =
        ⟨jsTrim s, "text", none, none⟩ := by
      simp [StreamingHandler.extractMessageContent, hType, hText]
    have hNone : AiCard.createAICard env.tokenRes env.cardInstanceId env.createOk
        env.deliverOk = none := by
      rw [hTok]
      rcases hFail with hF | hF <;> rw [hF]
      · rfl
      · simp [AiCard.createAICard]
    have hEffects : AiCard.createAICardEffects env.tokenRes env.cardInstanceId env.createOk =
        [.cardCreateInstance env.cardInstanceId] ++
        (if env.createOk then [.cardDeliver env.cardInstanceId] else []) := by
      rw [hTok]
      rfl
    have hFallback : StreamingHandler.fallbackBranch env none =
        [Send.sendDingTalkMessage
          (let post := env.processFileMarkers (env.processLocalImages
            (String.join (env.gateway.chunks.map Prod.fst)))
           if post ≠ "" then post else "（无响应）")
          (some true) none none] := by
      simp only [StreamingHandler.fallbackBranch, hGw]
    rw [StreamingHandler.handleDingTalkStreamingMessage]
    simp only [hContent, hTrim, hNotCmd, hDirect, hCardMode, hNone, hEffects, hFallback]
    simp only [ne_eq, hTrim, not_false_eq_true, false_and, if_false, Option.getD_none,
      List.length_nil, Bool.false_eq_true, reduceIte]
    rw [if_pos hCardMode]
    constructor
    · simp [hFallback, ite_not]
    · cases hCo : env.createOk <;>
        simp [hCo, hFallback, ite_not, AiCard.Effect.isWebhookSend,
          Send.sendDingTalkMessage, List.filter]

/-- Witness for C3: a direct text message "hello", create POST failing,
gateway streaming "hello " then "back"; the only webhook send carries
"hello back". -/
theorem claim_C3_witness :
    jsTrim "hello" ≠ "" ∧
    Session.isNewSessionCommand (jsTrim "hello") = false ∧
    ((false : Bool) = false ∨ (true : Bool) = false) ∧
    (StreamingHandler.handleDingTalkStreamingMessage
        ⟨none, none, none, none, none⟩
        { msgtype := some "text", textContent := some "hello",
          conversationType := some "1", conversationId := "cid1",
          senderStaffId := some "u1" }
        ⟨.ok "tok", "card1", false, true, ⟨[("hello ", 0), ("back", 400)], none⟩,
          id, id, false⟩
        (fun _ => none) 0).1 =
      [AiCard.Effect.cardCreateInstance "card1",
       AiCard.Effect.webhookSend "markdown" (some "hello back") "hello back" []] := by
  refine ⟨by decide, by decide, Or.inl rfl, ?_⟩
  have h := (claim_C3.2
    ⟨none, none, none, none, none⟩
    { msgtype := some "text", textContent := some "hello",
      conversationType := some "1", conversationId := "cid1",
      senderStaffId := some "u1" }
    ⟨.ok "tok", "card1", false, true, ⟨[("hello ", 0), ("back", 400)], none⟩,
      id, id, false⟩
    (fun _ => none) 0 "hello" "tok"
    rfl rfl (by decide) (by decide) rfl (by decide) rfl (Or.inl rfl) rfl).1
  rw [h]
  rfl
